import Mathlib

/-!
Verification of the TND_NEWs video-processing core (tnd_apps/tndvideo).

The definitions below are shallow embeddings of the Python source:
`models.py` (VideoProcessingQueue), `tasks.py` (VideoProcessor,
process_video_task, process_queued_videos) and `views.py` (queue-position
computation and the enqueue views).  Django `CharField` values are modelled
as `String`; database query comparisons on them (`order_by`, `__gte`) are
lexicographic on the stored string, exactly as the database executes them
(`lexLt` below is codepoint-lexicographic order on the characters).
Python floats are modelled as exact rationals; Python `int()` is truncation
toward zero (`intTrunc`).
-/

namespace TNDVideo

/-- Python `int()` applied to a (rational-valued) number: truncation toward
zero. -/
def intTrunc (q : ℚ) : ℤ := if 0 ≤ q then ⌊q⌋ else ⌈q⌉

/-- Codepoint-lexicographic order on character lists: the order a SQL
database applies to `CharField` values under a binary/ASCII collation. -/
def lexLt : List Char → List Char → Bool
  | [], [] => false
  | [], _ :: _ => true
  | _ :: _, [] => false
  | c :: cs, d :: ds =>
    if c.val < d.val then true
    else if d.val < c.val then false
    else lexLt cs ds

/-- `a < b` for two stored CharField values. -/
def charFieldLt (a b : String) : Bool := lexLt a.data b.data

/-- `a <= b` for two stored CharField values (`__gte` in a Django query is
`charFieldLe` with the arguments swapped). -/
def charFieldLe (a b : String) : Bool := !charFieldLt b a

/-- One row of the `video_processing_queue` table
(`VideoProcessingQueue`, models.py 191-252).  `priority` and `status` are
stored as strings (CharField); `queued_at` is modelled as a natural-number
timestamp. -/
structure QueueEntryRec where
  status : String
  priority : String
  queued_at : ℕ
  started_at : Option ℕ := none
  completed_at : Option ℕ := none
  task_id : String := ""
  progress_percentage : ℤ := 0
  error_message : String := ""
  retry_count : ℕ := 0
  max_retries : ℕ := 3
deriving DecidableEq, Repr

/-- The priority order the spec states: urgent > high > normal > low. -/
def specPriorityRank : String → ℕ
  | "urgent" => 3
  | "high" => 2
  | "normal" => 1
  | _ => 0

/-- `order_by('-priority', 'queued_at')`: `a` strictly precedes `b` when
`a.priority` is lexicographically greater, or equal with earlier
`queued_at` (tasks.py 506-508; the database compares the CharField
strings). -/
def djangoOrderBefore (a b : QueueEntryRec) : Bool :=
  charFieldLt b.priority a.priority ||
    (decide (a.priority = b.priority) && decide (a.queued_at < b.queued_at))

/-- Ordering the spec asks for: maximal under urgent > high > normal > low,
ties by earliest `queued_at`. -/
def specOrderBefore (a b : QueueEntryRec) : Bool :=
  decide (specPriorityRank b.priority < specPriorityRank a.priority) ||
    (decide (specPriorityRank a.priority = specPriorityRank b.priority) &&
      decide (a.queued_at < b.queued_at))

/-- Pick the first element of the queue under a strict "before" relation
(the stable minimum, as `.order_by(...).first()` returns). -/
def firstUnder (before : QueueEntryRec → QueueEntryRec → Bool)
    (queue : List QueueEntryRec) : Option QueueEntryRec :=
  queue.foldl
    (fun acc e =>
      match acc with
      | none => some e
      | some b => if before e b then some e else some b)
    none

/-- Embeds `process_queued_videos` (tasks.py 497-514): among rows with
`status='queued'`, the first under `order_by('-priority', 'queued_at')`. -/
def process_queued_videos (queue : List QueueEntryRec) : Option QueueEntryRec :=
  firstUnder djangoOrderBefore (queue.filter fun e => decide (e.status = "queued"))

/-- The dequeue the spec describes: highest priority under
urgent > high > normal > low, FIFO within a priority. -/
def specDequeue (queue : List QueueEntryRec) : Option QueueEntryRec :=
  firstUnder specOrderBefore (queue.filter fun e => decide (e.status = "queued"))

/-- Embeds `_calculate_queue_position` (views.py 282-291) and
`_get_queue_position` (views.py 207-219): count of rows with
`status='queued'`, `priority__gte` (lexicographic on the stored string) and
`queued_at__lt`, plus 1. -/
def calculate_queue_position (queue : List QueueEntryRec) (e : QueueEntryRec) : ℕ :=
  (queue.filter fun x =>
    decide (x.status = "queued") && charFieldLe e.priority x.priority &&
      decide (x.queued_at < e.queued_at)).length + 1

/-- The queue position the spec describes: same count but with priority
compared under urgent > high > normal > low. -/
def specQueuePosition (queue : List QueueEntryRec) (e : QueueEntryRec) : ℕ :=
  (queue.filter fun x =>
    decide (x.status = "queued") &&
      decide (specPriorityRank e.priority ≤ specPriorityRank x.priority) &&
      decide (x.queued_at < e.queued_at)).length + 1

/-- A queued entry with priority `high`, queued first. -/
def entryHighFirst : QueueEntryRec :=
  { status := "queued", priority := "high", queued_at := 0 }

/-- A queued entry with priority `low`, queued later. -/
def entryLowLater : QueueEntryRec :=
  { status := "queued", priority := "low", queued_at := 1 }

/-! ### Retry bookkeeping of `process_video_task` (tasks.py 394-457)

`process_video_task` looks up `queue_task` with
`filter(video=video, status='queued').first()`; on pipeline failure it sets
the entry to `failed`, increments `retry_count`, and — if
`retry_count < max_retries` — schedules a Celery retry of itself after
`60 * 2 ** retry_count` seconds.  A retried invocation performs the same
lookup again. -/

/-- What one invocation of `process_video_task` does after it, including the
scheduler's follow-up. -/
inductive TaskOutcome where
  | retryAfter (delaySeconds : ℕ)
  | permanentFailure
deriving DecidableEq, Repr

/-- One invocation of `process_video_task` on an asset whose single queue
entry is `e`, for a run in which the pipeline invocation raises with message
`msg` (tasks.py 404-457, failure path).  Returns the entry as persisted and
the outcome. -/
def process_video_task_failingRun (msg : String) (e : QueueEntryRec) :
    QueueEntryRec × TaskOutcome :=
  -- queue_task = ....filter(video=video, status='queued').first()
  if e.status = "queued" then
    -- queue_task.status = 'processing' (tasks.py 419-422), then the pipeline
    -- raises, and the except-branch bookkeeping runs (tasks.py 444-457):
    let e2 : QueueEntryRec :=
      { e with status := "failed", error_message := msg,
               retry_count := e.retry_count + 1 }
    if e2.retry_count < e2.max_retries then
      (e2, .retryAfter (60 * 2 ^ e2.retry_count))
    else
      (e2, .permanentFailure)
  else
    -- lookup found no row with status='queued': queue_task is None, the
    -- except-branch guards `if queue_task:` both fail, the exception is
    -- re-raised with no retry scheduled.
    (e, .permanentFailure)

/-- The full automatic behaviour for a persistently failing asset: run the
task, follow every scheduled retry, collect the backoff delays.  `fuel`
bounds the recursion and is chosen larger than any possible retry chain. -/
def automaticRetrySequence (msg : String) : ℕ → QueueEntryRec → List ℕ × QueueEntryRec
  | 0, e => ([], e)
  | fuel + 1, e =>
    match process_video_task_failingRun msg e with
    | (e', .retryAfter d) =>
      let rest := automaticRetrySequence msg fuel e'
      (d :: rest.1, rest.2)
    | (e', .permanentFailure) => ([], e')

/-- A freshly enqueued entry: `status='queued'`, `retry_count=0`,
`max_retries=3` (model defaults, models.py 237-238). -/
def freshQueueEntry : QueueEntryRec :=
  { status := "queued", priority := "normal", queued_at := 0 }

/-! ### Quality presets, scaling and keyframe interval
(`VideoProcessor`, tasks.py 24-302) -/

/-- One entry of `VideoProcessor.QUALITY_PRESETS` (tasks.py 28-50); the
bitrates are the numeric part of the `'...k'` strings, in kbps. -/
structure QualityPreset where
  width : ℕ
  height : ℕ
  video_bitrate : ℕ
  audio_bitrate : ℕ
  label : String
deriving DecidableEq, Repr

/-- `VideoProcessor.QUALITY_PRESETS` (tasks.py 28-50), in iteration order. -/
def QUALITY_PRESETS : List (String × QualityPreset) :=
  [("low", ⟨640, 360, 800, 96, "360p"⟩),
   ("medium", ⟨1280, 720, 2800, 128, "720p"⟩),
   ("high", ⟨1920, 1080, 5000, 192, "1080p"⟩)]

/-- `VideoProcessor.SEGMENT_DURATION` (tasks.py 52). -/
def SEGMENT_DURATION : ℕ := 4

/-- Embeds the scaled-dimension computation of
`VideoProcessor._process_quality` (tasks.py 216-237): preserve the source
aspect ratio, fix one dimension at the preset's, truncate the other with
`int()` and lower it to an even value with `x - (x % 2)`. -/
def process_quality_dimensions (input_width input_height target_width target_height : ℕ) :
    ℤ × ℤ :=
  let aspect_ratio : ℚ := (input_width : ℚ) / (input_height : ℚ)
  let target_aspect : ℚ := (target_width : ℚ) / (target_height : ℚ)
  if target_aspect < aspect_ratio then
    -- video is wider, scale by width
    let scale_height := intTrunc ((target_width : ℚ) / aspect_ratio)
    ((target_width : ℤ), scale_height - scale_height % 2)
  else
    -- video is taller, scale by height
    let scale_width := intTrunc ((target_height : ℚ) * aspect_ratio)
    (scale_width - scale_width % 2, (target_height : ℤ))

/-- The scaling rule exactly as the spec (§4.2) words it: compute
`sourceAspect` and `targetAspect`; if `sourceAspect > targetAspect` scale to
`presetWidth` and set height to the floor of `presetWidth / sourceAspect`
lowered to the nearest even integer, otherwise scale to `presetHeight` and
set width to the floor of `presetHeight * sourceAspect` lowered to the
nearest even integer. -/
def specScaleDimensions (sourceWidth sourceHeight presetWidth presetHeight : ℕ) :
    ℤ × ℤ :=
  let sourceAspect : ℚ := (sourceWidth : ℚ) / (sourceHeight : ℚ)
  let targetAspect : ℚ := (presetWidth : ℚ) / (presetHeight : ℚ)
  if sourceAspect > targetAspect then
    let h := ⌊(presetWidth : ℚ) / sourceAspect⌋
    ((presetWidth : ℤ), h - h % 2)
  else
    let w := ⌊(presetHeight : ℚ) * sourceAspect⌋
    (w - w % 2, (presetHeight : ℤ))

/-- Embeds the keyframe-interval argument of `_process_quality`
(tasks.py 265): `'g': int(metadata['fps'] * self.SEGMENT_DURATION)`. -/
def process_quality_keyframe_interval (fps : ℚ) : ℤ :=
  intTrunc (fps * (SEGMENT_DURATION : ℚ))

/-! ### Enqueue operations and the one-active-entry invariant (C9) -/

/-- The queue rows referencing one asset, together with the asset's own
status field. -/
structure AssetQueueState where
  video_status : String
  entries : List QueueEntryRec
deriving DecidableEq, Repr

/-- `VideoUploadView`: `_create_video` stores the video with
`status='uploaded'` (views.py 172-179) and `_queue_for_processing` creates
one queue entry with `status='queued'` (views.py 193-205). -/
def uploadOp (priority : String) (t : ℕ) : AssetQueueState :=
  { video_status := "uploaded",
    entries := [{ status := "queued", priority := priority, queued_at := t }] }

/-- `BulkVideoProcessView._bulk_process`, body for one asset
(views.py 696-711): skip when `video.status in ['processing', 'ready']`,
otherwise create a new queue entry with `status='queued'`. -/
def bulkProcessOp (priority : String) (t : ℕ) (s : AssetQueueState) : AssetQueueState :=
  if s.video_status = "processing" ∨ s.video_status = "ready" then s
  else
    { s with entries :=
        s.entries ++ [{ status := "queued", priority := priority, queued_at := t }] }

/-- `VideoRetryProcessingView.post` (views.py 321-351): only for
`video.status == 'failed'`; resets the video to `uploaded` and creates a new
queue entry with priority `high`. -/
def retryOp (t : ℕ) (s : AssetQueueState) : AssetQueueState :=
  if s.video_status = "failed" then
    { video_status := "uploaded",
      entries :=
        s.entries ++ [{ status := "queued", priority := "high", queued_at := t }] }
  else s

/-- Number of queue entries for the asset whose status is in
{queued, processing}. -/
def activeEntryCount (s : AssetQueueState) : ℕ :=
  (s.entries.filter fun e =>
    decide (e.status = "queued") || decide (e.status = "processing")).length

/-! ### The processing pipeline `VideoProcessor.process` (tasks.py 60-110)

The pipeline is embedded as a deterministic function of the outcomes of its
externally-effectful steps (ffmpeg/ffprobe/filesystem calls), each of which
either succeeds or raises with a message. -/

/-- The fields of the `Video` row that the pipeline writes
(models.py 81-101). -/
structure VideoRec where
  status : String := "uploaded"
  processing_progress : ℤ := 0
  processing_error : String := ""
  processing_completed_at : Option ℕ := none
  is_active : Bool := true
  published_at : Option ℕ := none
deriving DecidableEq, Repr

/-- State a pipeline run mutates: the asset row, whether the asset's working
output directory (`MEDIA_ROOT/videos/processed/<id>`) exists, whether a
thumbnail was stored, and the sequence of `processing_progress` values
persisted so far (each `_update_progress` call saves the row,
tasks.py 362-374). -/
structure PipeState where
  video : VideoRec := {}
  dirExists : Bool := false
  thumbnailSaved : Bool := false
  progressTrace : List ℤ := []
deriving DecidableEq, Repr

/-- Outcomes of the externally-effectful steps of one run: directory
creation, ffprobe metadata extraction, thumbnail generation, the per-quality
ffmpeg encode (indexed by quality position), master-playlist writing and
quality-record saving. -/
structure StepOutcomes where
  create_dirs : Except String Unit
  extract_metadata : Except String Unit
  generate_thumbnail : Except String Unit
  encode : ℕ → Except String Unit
  master_playlist : Except String Unit
  save_records : Except String Unit

/-- `_update_progress` (tasks.py 362-374): persist the percentage to the
asset row. -/
def updateProgress (p : ℤ) (s : PipeState) : PipeState :=
  { s with video := { s.video with processing_progress := p },
           progressTrace := s.progressTrace ++ [p] }

/-- The percentage persisted after quality number `idx` (0-based) of `n`:
`int(15 + ((idx + 1) * (75 / n)))` (tasks.py 81, 89-90). -/
def qualityProgress (n idx : ℕ) : ℤ :=
  intTrunc ((15 : ℚ) + ((idx : ℚ) + 1) * ((75 : ℚ) / (n : ℚ)))

/-- `_handle_error` (tasks.py 376-391) followed by the re-raise in `process`
(tasks.py 107-110): mark the asset failed, record the message and completion
time, delete the working output directory, and propagate the exception. -/
def handleError (msg : String) (now : ℕ) (s : PipeState) :
    PipeState × Except String Unit :=
  ({ s with
      video := { s.video with
                  status := "failed", processing_error := msg,
                  processing_completed_at := some now },
      dirExists := false },
   Except.error msg)

/-- `_finalize_processing` (tasks.py 350-360). -/
def finalizeProcessing (now : ℕ) (s : PipeState) : PipeState :=
  { s with video := { s.video with
                       status := "ready", processing_completed_at := some now,
                       processing_progress := 100, is_active := true,
                       published_at := some now } }

/-- The per-quality loop (tasks.py 83-90): encode quality `idx`, persist its
progress, continue; an encode error aborts the loop (and is handled by the
caller).  `remaining` counts the qualities left, starting at `n`. -/
def processQualitiesAux (encode : ℕ → Except String Unit) (n : ℕ) :
    ℕ → ℕ → PipeState → PipeState × Except String Unit
  | 0, _, s => (s, Except.ok ())
  | remaining + 1, idx, s =>
    match encode idx with
    | .error m => (s, .error m)
    | .ok _ =>
      processQualitiesAux encode n remaining (idx + 1)
        (updateProgress (qualityProgress n idx) s)

/-- Steps 2-3 of `process` after a successful metadata extraction
(tasks.py 69-77): progress 10, thumbnail generation — whose failure is
caught inside `_generate_thumbnail` (tasks.py 206-208) and only logged —
then progress 15. -/
def preQualityState (gt : Except String Unit) (s0 : PipeState) : PipeState :=
  let s := updateProgress 5 { s0 with dirExists := true }
  let s := updateProgress 10 s
  let s :=
    match gt with
    | .ok _ => { s with thumbnailSaved := true }
    | .error _ => s   -- warning logged, processing continues
  updateProgress 15 s

/-- Steps 5-7 of `process` (tasks.py 92-110) applied to the result of the
per-quality loop: master playlist, progress 95, quality records, progress
98, finalize, progress 100; any error goes through `_handle_error` and is
re-raised. -/
def postQualityFinish (mp sr : Except String Unit) (now : ℕ)
    (p : PipeState × Except String Unit) : PipeState × Except String Unit :=
  match p with
  | (s, .error m) => handleError m now s
  | (s, .ok _) =>
    match mp with
    | .error m => handleError m now s
    | .ok _ =>
      let s := updateProgress 95 s
      match sr with
      | .error m => handleError m now s
      | .ok _ =>
        let s := updateProgress 98 s
        let s := finalizeProcessing now s
        let s := updateProgress 100 s
        (s, Except.ok ())

/-- `VideoProcessor.process` (tasks.py 60-110) for a run over `n` quality
presets, with the step outcomes `o`; `now` is the wall-clock time a failure
or finalization would record.  A thumbnail failure does not abort the run;
every other step error reaches the `except` clause of `process`, which
calls `_handle_error` and re-raises. -/
def VideoProcessor_process (o : StepOutcomes) (n now : ℕ) (s0 : PipeState) :
    PipeState × Except String Unit :=
  match o.create_dirs with
  | .error m => handleError m now s0
  | .ok _ =>
    match o.extract_metadata with
    | .error m => handleError m now (updateProgress 5 { s0 with dirExists := true })
    | .ok _ =>
      postQualityFinish o.master_playlist o.save_records now
        (processQualitiesAux o.encode n n 0
          (preQualityState o.generate_thumbnail s0))

/-- The first encode error among qualities `idx, idx+1, …` (`remaining` of
them), if any. -/
def firstEncodeError (encode : ℕ → Except String Unit) :
    ℕ → ℕ → Option String
  | 0, _ => none
  | remaining + 1, idx =>
    match encode idx with
    | .error m => some m
    | .ok _ => firstEncodeError encode remaining (idx + 1)

/-- The message of the first step error a run with outcomes `o` over `n`
qualities hits, ignoring the (non-fatal) thumbnail step. -/
def firstFatalError (o : StepOutcomes) (n : ℕ) : Option String :=
  match o.create_dirs with
  | .error m => some m
  | .ok _ =>
    match o.extract_metadata with
    | .error m => some m
    | .ok _ =>
      match firstEncodeError o.encode n 0 with
      | some m => some m
      | none =>
        match o.master_playlist with
        | .error m => some m
        | .ok _ =>
          match o.save_records with
          | .error m => some m
          | .ok _ => none

/-- All external steps succeed. -/
def allOkOutcomes : StepOutcomes :=
  { create_dirs := .ok (), extract_metadata := .ok (),
    generate_thumbnail := .ok (), encode := fun _ => .ok (),
    master_playlist := .ok (), save_records := .ok () }

/-- Metadata extraction fails (an undecodable source); every other step
would succeed. -/
def metadataFailOutcomes : StepOutcomes :=
  { allOkOutcomes with extract_metadata := .error "no decodable video stream" }

/-- Thumbnail extraction fails; every other step succeeds. -/
def thumbnailFailOutcomes : StepOutcomes :=
  { allOkOutcomes with generate_thumbnail := .error "cannot seek" }

/-! ### `VideoProcessingQueue.save` and `update_fields` (C10) -/

/-- The columns of `video_processing_queue` that the modelled saves name in
`update_fields`. -/
inductive QField where
  | status | priority | task_id | progress_percentage
  | started_at | completed_at | error_message | retry_count
deriving DecidableEq, Repr

/-- The overridden `save` body before calling `super().save()`
(models.py 247-252): fill `started_at` on entering `processing`, fill
`completed_at` on entering a terminal status, each only when still unset. -/
def VideoProcessingQueue_save_hook (now : ℕ) (e : QueueEntryRec) : QueueEntryRec :=
  let e1 :=
    if e.status = "processing" ∧ e.started_at = none then
      { e with started_at := some now }
    else e
  if (e1.status = "completed" ∨ e1.status = "failed" ∨ e1.status = "cancelled") ∧
      e1.completed_at = none then
    { e1 with completed_at := some now }
  else e1

/-- Copy one named column from the in-memory instance into the stored row. -/
def persistField (inst : QueueEntryRec) (db : QueueEntryRec) : QField → QueueEntryRec
  | .status => { db with status := inst.status }
  | .priority => { db with priority := inst.priority }
  | .task_id => { db with task_id := inst.task_id }
  | .progress_percentage => { db with progress_percentage := inst.progress_percentage }
  | .started_at => { db with started_at := inst.started_at }
  | .completed_at => { db with completed_at := inst.completed_at }
  | .error_message => { db with error_message := inst.error_message }
  | .retry_count => { db with retry_count := inst.retry_count }

/-- `instance.save(update_fields=...)`: run the overridden hook on the
in-memory instance, then persist — all columns when `update_fields` is
absent, otherwise exactly the named columns (Django `Model.save`
semantics).  Returns (in-memory instance, stored row). -/
def djangoSave (now : ℕ) (update_fields : Option (List QField))
    (inst db : QueueEntryRec) : QueueEntryRec × QueueEntryRec :=
  let inst' := VideoProcessingQueue_save_hook now inst
  match update_fields with
  | none => (inst', inst')
  | some fs => (inst', fs.foldl (persistField inst') db)

end TNDVideo

namespace TNDVideo

/-- Helper: truncation toward zero agrees with the floor on nonnegative
values. -/
theorem intTrunc_eq_floor {q : ℚ} (h : 0 ≤ q) : intTrunc q = ⌊q⌋ := by
  simp [intTrunc, h]

/-- C1: `process_queued_videos` orders by the CharField string, so on a queue
holding a `high`-priority entry (queued first) and a `low`-priority entry
(queued later) it selects the `low` entry, because "low" > "high"
lexicographically.  The spec's order (urgent > high > normal > low) selects
the `high` entry. -/
theorem process_queued_videos_violates_priority_order :
    process_queued_videos [entryHighFirst, entryLowLater] = some entryLowLater ∧
    specDequeue [entryHighFirst, entryLowLater] = some entryHighFirst ∧
    entryLowLater ≠ entryHighFirst := by
  refine ⟨by decide, by decide, by decide⟩

/-- C3: the queue-position count uses `priority__gte` on the CharField, i.e.
lexicographic string order.  For a `high`-priority entry queued at t=1 with
one other queued `low`-priority entry at t=0, the code reports position 2
("low" ≥ "high" lexicographically) while the spec's priority order gives
position 1 (low < high, so the other entry does not count). -/
theorem calculate_queue_position_violates_priority_order :
    calculate_queue_position
        [{ entryLowLater with queued_at := 0 }, { entryHighFirst with queued_at := 1 }]
        { entryHighFirst with queued_at := 1 } = 2 ∧
    specQueuePosition
        [{ entryLowLater with queued_at := 0 }, { entryHighFirst with queued_at := 1 }]
        { entryHighFirst with queued_at := 1 } = 1 := by
  constructor <;> decide

/-- C2: for a fresh entry (`retry_count=0`, `max_retries=3`) whose pipeline
run fails on every attempt, the code performs exactly one automatic retry,
scheduled after 120 seconds (`retry_count` is incremented to 1 before the
delay `60 * 2 ** retry_count` is computed), and the retried invocation
finds no entry with `status='queued'` — the entry was already marked
`failed` — so it stops with `retry_count = 1`.  Not three retries at
60 s/120 s/240 s ending at `retry_count = 3` as claimed. -/
theorem retry_backoff_actual_behaviour :
    (automaticRetrySequence "encode failed" 10 freshQueueEntry).1 = [120] ∧
    (automaticRetrySequence "encode failed" 10 freshQueueEntry).2.retry_count = 1 ∧
    (automaticRetrySequence "encode failed" 10 freshQueueEntry).2.status = "failed" ∧
    (automaticRetrySequence "encode failed" 10 freshQueueEntry).1 ≠ [60, 120, 240] ∧
    (automaticRetrySequence "encode failed" 10 freshQueueEntry).2.retry_count ≠
      freshQueueEntry.max_retries := by
  refine ⟨by decide, by decide, by decide, by decide, by decide⟩

/-- Helper: `x - x % 2` is even. -/
theorem dvd_two_sub_emod_two (t : ℤ) : 2 ∣ t - t % 2 := by
  refine ⟨t / 2, ?_⟩
  rw [Int.emod_def]
  ring

/-- Helper: for `t ≥ 0`-free bounds, `t - 1 ≤ t - t % 2 ≤ t`. -/
theorem sub_emod_two_bounds (t : ℤ) : t - 1 ≤ t - t % 2 ∧ t - t % 2 ≤ t := by
  have h1 : 0 ≤ t % 2 := Int.emod_nonneg t (by norm_num)
  have h2 : t % 2 < 2 := Int.emod_lt_of_pos t (by norm_num)
  omega

/-- C4: the encoder's dimension computation agrees exactly with the spec's
scaling algorithm: for positive source and preset dimensions, if the source
aspect exceeds the target aspect the output is `presetWidth` by the floor
of `presetWidth / sourceAspect` lowered to the nearest even integer, and
otherwise the floor of `presetHeight * sourceAspect` lowered to the nearest
even integer by `presetHeight`. -/
theorem process_quality_dimensions_eq_spec (sw sh pw ph : ℕ)
    (hsw : 0 < sw) (hsh : 0 < sh) (hpw : 0 < pw) (hph : 0 < ph) :
    process_quality_dimensions sw sh pw ph = specScaleDimensions sw sh pw ph := by
  have h1 : (0 : ℚ) ≤ (pw : ℚ) / ((sw : ℚ) / (sh : ℚ)) := by positivity
  have h2 : (0 : ℚ) ≤ (ph : ℚ) * ((sw : ℚ) / (sh : ℚ)) := by positivity
  simp only [process_quality_dimensions, specScaleDimensions, gt_iff_lt]
  split
  · rw [intTrunc_eq_floor h1]
  · rw [intTrunc_eq_floor h2]

/-- Witness for C4 at a concrete input: a 1920×1080 source with the
`medium` (1280×720) preset. -/
theorem process_quality_dimensions_eq_spec_witness :
    0 < 1920 ∧ 0 < 1080 ∧ 0 < 1280 ∧ 0 < 720 ∧
    process_quality_dimensions 1920 1080 1280 720 =
      specScaleDimensions 1920 1080 1280 720 :=
  ⟨by decide, by decide, by decide, by decide,
    process_quality_dimensions_eq_spec 1920 1080 1280 720
      (by decide) (by decide) (by decide) (by decide)⟩

/-- C5 counterexample: for a 640×480 source and the `medium` preset
(1280×720) the code outputs 960×720, whose aspect error against the preset
aspect is 4/9; the even pair 1280×720 achieves error 0, so
`|width/height − presetWidth/presetHeight|` is not minimal subject to both
dimensions being even. -/
theorem scale_not_preset_aspect_minimal :
    process_quality_dimensions 640 480 1280 720 = (960, 720) ∧
    (960 : ℤ) % 2 = 0 ∧ (720 : ℤ) % 2 = 0 ∧
    (1280 : ℤ) % 2 = 0 ∧
    |(1280 : ℚ) / 720 - 1280 / 720| < |(960 : ℚ) / 720 - 1280 / 720| := by
  refine ⟨?_, by decide, by decide, by decide, by norm_num⟩
  norm_num [process_quality_dimensions, intTrunc]

/-- C5 amended: for positive source dimensions and a preset with even
dimensions, both computed dimensions are even; the fixed dimension equals
the preset's, and the derived dimension is the exact aspect-preserving
value rounded down, staying within 2 below it (the output approximates the
source aspect, not the preset aspect). -/
theorem process_quality_dimensions_even_and_close (sw sh pw ph : ℕ)
    (hsw : 0 < sw) (hsh : 0 < sh) (hpw : 0 < pw) (hph : 0 < ph)
    (hpwE : 2 ∣ (pw : ℤ)) (hphE : 2 ∣ (ph : ℤ)) :
    2 ∣ (process_quality_dimensions sw sh pw ph).1 ∧
    2 ∣ (process_quality_dimensions sw sh pw ph).2 ∧
    (((pw : ℚ) / ph < (sw : ℚ) / sh ∧
        (process_quality_dimensions sw sh pw ph).1 = pw ∧
        ((process_quality_dimensions sw sh pw ph).2 : ℚ) ≤
          (pw : ℚ) / ((sw : ℚ) / sh) ∧
        (pw : ℚ) / ((sw : ℚ) / sh) <
          ((process_quality_dimensions sw sh pw ph).2 : ℚ) + 2) ∨
      (¬((pw : ℚ) / ph < (sw : ℚ) / sh) ∧
        (process_quality_dimensions sw sh pw ph).2 = ph ∧
        ((process_quality_dimensions sw sh pw ph).1 : ℚ) ≤
          (ph : ℚ) * ((sw : ℚ) / sh) ∧
        (ph : ℚ) * ((sw : ℚ) / sh) <
          ((process_quality_dimensions sw sh pw ph).1 : ℚ) + 2)) := by
  have h1 : (0 : ℚ) ≤ (pw : ℚ) / ((sw : ℚ) / (sh : ℚ)) := by positivity
  have h2 : (0 : ℚ) ≤ (ph : ℚ) * ((sw : ℚ) / (sh : ℚ)) := by positivity
  simp only [process_quality_dimensions]
  split
  · rename_i hlt
    rw [intTrunc_eq_floor h1]
    set t := ⌊(pw : ℚ) / ((sw : ℚ) / (sh : ℚ))⌋ with ht
    have hb := sub_emod_two_bounds t
    have hfl : (t : ℚ) ≤ (pw : ℚ) / ((sw : ℚ) / (sh : ℚ)) := Int.floor_le _
    have hfu : (pw : ℚ) / ((sw : ℚ) / (sh : ℚ)) < t + 1 := Int.lt_floor_add_one _
    refine ⟨hpwE, dvd_two_sub_emod_two t, Or.inl ⟨hlt, rfl, ?_, ?_⟩⟩
    · calc ((t - t % 2 : ℤ) : ℚ) ≤ (t : ℚ) := by exact_mod_cast (by omega : t - t % 2 ≤ t)
        _ ≤ _ := hfl
    · calc (pw : ℚ) / ((sw : ℚ) / (sh : ℚ)) < t + 1 := hfu
        _ ≤ ((t - t % 2 : ℤ) : ℚ) + 2 := by
            have : t + 1 ≤ (t - t % 2) + 2 := by omega
            exact_mod_cast this
  · rename_i hlt
    rw [intTrunc_eq_floor h2]
    set t := ⌊(ph : ℚ) * ((sw : ℚ) / (sh : ℚ))⌋ with ht
    have hb := sub_emod_two_bounds t
    have hfl : (t : ℚ) ≤ (ph : ℚ) * ((sw : ℚ) / (sh : ℚ)) := Int.floor_le _
    have hfu : (ph : ℚ) * ((sw : ℚ) / (sh : ℚ)) < t + 1 := Int.lt_floor_add_one _
    refine ⟨dvd_two_sub_emod_two t, hphE, Or.inr ⟨hlt, rfl, ?_, ?_⟩⟩
    · calc ((t - t % 2 : ℤ) : ℚ) ≤ (t : ℚ) := by exact_mod_cast (by omega : t - t % 2 ≤ t)
        _ ≤ _ := hfl
    · calc (ph : ℚ) * ((sw : ℚ) / (sh : ℚ)) < t + 1 := hfu
        _ ≤ ((t - t % 2 : ℤ) : ℚ) + 2 := by
            have : t + 1 ≤ (t - t % 2) + 2 := by omega
            exact_mod_cast this

/-- Witness for the amended C5 at a concrete input: a 640×480 source with
the `medium` (1280×720) preset. -/
theorem process_quality_dimensions_even_and_close_witness :
    0 < 640 ∧ 0 < 480 ∧ 0 < 1280 ∧ 0 < 720 ∧ 2 ∣ (1280 : ℤ) ∧ 2 ∣ (720 : ℤ) ∧
    2 ∣ (process_quality_dimensions 640 480 1280 720).1 ∧
    2 ∣ (process_quality_dimensions 640 480 1280 720).2 :=
  ⟨by decide, by decide, by decide, by decide, by decide, by decide,
    (process_quality_dimensions_even_and_close 640 480 1280 720
      (by decide) (by decide) (by decide) (by decide) (by decide) (by decide)).1,
    (process_quality_dimensions_even_and_close 640 480 1280 720
      (by decide) (by decide) (by decide) (by decide) (by decide) (by decide)).2.1⟩

/-- C6 counterexample: for a 29.97 fps source the code passes
`int(29.97 * 4) = 119` to the encoder, while `round(29.97 * 4) = 120`. -/
theorem keyframe_interval_not_round :
    process_quality_keyframe_interval (2997 / 100) = 119 ∧
    round ((2997 / 100 : ℚ) * (SEGMENT_DURATION : ℚ)) = 120 ∧
    (119 : ℤ) ≠ 120 := by
  refine ⟨?_, ?_, by decide⟩
  · norm_num [process_quality_keyframe_interval, intTrunc, SEGMENT_DURATION]
  · rw [round_eq]
    norm_num [SEGMENT_DURATION]

/-- C6 amended: the keyframe interval is source fps × segment duration
truncated toward zero, which for nonnegative fps is its floor (not its
rounding). -/
theorem keyframe_interval_eq_floor (fps : ℚ) (h : 0 ≤ fps) :
    process_quality_keyframe_interval fps = ⌊fps * (SEGMENT_DURATION : ℚ)⌋ := by
  unfold process_quality_keyframe_interval
  exact intTrunc_eq_floor (by positivity)

/-- Witness for the amended C6 at 29.97 fps. -/
theorem keyframe_interval_eq_floor_witness :
    (0 : ℚ) ≤ 2997 / 100 ∧
    process_quality_keyframe_interval (2997 / 100) =
      ⌊(2997 / 100 : ℚ) * (SEGMENT_DURATION : ℚ)⌋ :=
  ⟨by norm_num, keyframe_interval_eq_floor (2997 / 100) (by norm_num)⟩

/-! ### Pipeline helper lemmas -/

/-- The error result of the per-quality loop is its first encode error. -/
theorem processQualitiesAux_snd (e : ℕ → Except String Unit) (n : ℕ) :
    ∀ (r idx : ℕ) (s : PipeState),
      (processQualitiesAux e n r idx s).2 =
        (match firstEncodeError e r idx with
          | some m => Except.error m
          | none => Except.ok ())
  | 0, _, _ => rfl
  | r + 1, idx, s => by
    simp only [processQualitiesAux, firstEncodeError]
    cases e idx with
    | error m => rfl
    | ok _ => exact processQualitiesAux_snd e n r (idx + 1) _

/-- On a fully successful per-quality loop, the persisted progress values are
the per-quality percentages in order. -/
theorem processQualitiesAux_trace (e : ℕ → Except String Unit) (n : ℕ) :
    ∀ (r idx : ℕ) (s : PipeState), firstEncodeError e r idx = none →
      (processQualitiesAux e n r idx s).1.progressTrace =
        s.progressTrace ++ (List.range' idx r).map (qualityProgress n)
  | 0, idx, s, _ => by simp [processQualitiesAux, List.range']
  | r + 1, idx, s, h => by
    simp only [firstEncodeError] at h
    cases he : e idx with
    | error m => rw [he] at h; simp at h
    | ok _ =>
      rw [he] at h
      simp only [processQualitiesAux, he]
      rw [processQualitiesAux_trace e n r (idx + 1) _ h]
      simp [updateProgress, List.range'_succ]

/-- `qualityProgress` truncates a nonnegative value, so it is a floor. -/
theorem qualityProgress_eq_floor (n idx : ℕ) :
    qualityProgress n idx =
      ⌊(15 : ℚ) + ((idx : ℚ) + 1) * ((75 : ℚ) / (n : ℚ))⌋ :=
  intTrunc_eq_floor (by positivity)

/-- Every per-quality percentage is at least 15. -/
theorem le_qualityProgress (n idx : ℕ) : 15 ≤ qualityProgress n idx := by
  rw [qualityProgress_eq_floor]
  refine Int.le_floor.mpr ?_
  have h : (0 : ℚ) ≤ ((idx : ℚ) + 1) * ((75 : ℚ) / (n : ℚ)) := by positivity
  push_cast
  linarith

/-- The per-quality percentages are non-decreasing in the quality index. -/
theorem qualityProgress_mono (n : ℕ) {i j : ℕ} (h : i ≤ j) :
    qualityProgress n i ≤ qualityProgress n j := by
  rw [qualityProgress_eq_floor, qualityProgress_eq_floor]
  refine Int.floor_le_floor ?_
  have h75 : (0 : ℚ) ≤ (75 : ℚ) / (n : ℚ) := by positivity
  have hij : ((i : ℚ) + 1) ≤ ((j : ℚ) + 1) := by
    have : (i : ℚ) ≤ (j : ℚ) := by exact_mod_cast h
    linarith
  nlinarith

/-- Within range, the per-quality percentage stays at most 90. -/
theorem qualityProgress_le_90 (n idx : ℕ) (hidx : idx + 1 ≤ n) :
    qualityProgress n idx ≤ 90 := by
  rw [qualityProgress_eq_floor]
  have hn0 : (n : ℚ) ≠ 0 := Nat.cast_ne_zero.mpr (by omega)
  have harg : (15 : ℚ) + ((idx : ℚ) + 1) * ((75 : ℚ) / (n : ℚ)) ≤ 90 := by
    have h1 : ((idx : ℚ) + 1) ≤ (n : ℚ) := by exact_mod_cast hidx
    have h2 : (0 : ℚ) ≤ (75 : ℚ) / (n : ℚ) := by positivity
    have h3 : ((idx : ℚ) + 1) * ((75 : ℚ) / (n : ℚ)) ≤ (n : ℚ) * ((75 : ℚ) / (n : ℚ)) :=
      mul_le_mul_of_nonneg_right h1 h2
    have h4 : (n : ℚ) * ((75 : ℚ) / (n : ℚ)) = 75 := by
      rw [mul_comm, div_mul_cancel₀ _ hn0]
    linarith
  calc ⌊(15 : ℚ) + ((idx : ℚ) + 1) * ((75 : ℚ) / (n : ℚ))⌋
      ≤ ⌊(90 : ℚ)⌋ := Int.floor_le_floor harg
    _ = 90 := by norm_num

/-- Chain the per-quality percentages into the 95/98/100 tail. -/
theorem chain_quality_tail (n : ℕ) :
    ∀ (r idx : ℕ) (prev : ℤ), idx + r = n → prev ≤ 95 →
      (1 ≤ r → prev ≤ qualityProgress n idx) →
      List.Chain' (· ≤ ·)
        (prev :: ((List.range' idx r).map (qualityProgress n) ++ [95, 98, 100]))
  | 0, idx, prev, _, h95, _ => by
    have htail : List.Chain' (· ≤ ·) ([95, 98, 100] : List ℤ) :=
      List.chain'_cons.mpr ⟨by norm_num,
        List.chain'_cons.mpr ⟨by norm_num, List.chain'_singleton _⟩⟩
    simpa [List.range'] using List.chain'_cons.mpr ⟨h95, htail⟩
  | r + 1, idx, prev, hin, _, hq => by
    have hfirst : prev ≤ qualityProgress n idx := hq (by omega)
    have hnext :=
      chain_quality_tail n r (idx + 1) (qualityProgress n idx) (by omega)
        (le_trans (qualityProgress_le_90 n idx (by omega)) (by norm_num))
        (fun _ => qualityProgress_mono n (by omega))
    simpa [List.range'_succ] using List.chain'_cons.mpr ⟨hfirst, hnext⟩

/-- C8: whenever a pipeline step other than thumbnail generation fails (with
the first such failure carrying message `m`), `process` leaves the asset
with status `failed`, `processing_error` equal to `m`,
`processing_completed_at` set to the current time, the working output
directory deleted, and re-raises the error to its caller; and when no step
other than the thumbnail fails, the run succeeds (thumbnail failure is
non-fatal). -/
theorem process_error_handling (o : StepOutcomes) (n now : ℕ) (s : PipeState) :
    (∀ m, firstFatalError o n = some m →
      (VideoProcessor_process o n now s).2 = Except.error m ∧
      (VideoProcessor_process o n now s).1.video.status = "failed" ∧
      (VideoProcessor_process o n now s).1.video.processing_error = m ∧
      (VideoProcessor_process o n now s).1.video.processing_completed_at = some now ∧
      (VideoProcessor_process o n now s).1.dirExists = false) ∧
    (firstFatalError o n = none →
      (VideoProcessor_process o n now s).2 = Except.ok ()) := by
  obtain ⟨cd, em, gt, en, mp, sr⟩ := o
  simp only [VideoProcessor_process, firstFatalError]
  cases cd with
  | error m0 =>
    refine ⟨fun m hm => ?_, fun hm => by simp at hm⟩
    cases hm
    exact ⟨rfl, rfl, rfl, rfl, rfl⟩
  | ok _ =>
    cases em with
    | error m0 =>
      refine ⟨fun m hm => ?_, fun hm => by simp at hm⟩
      cases hm
      exact ⟨rfl, rfl, rfl, rfl, rfl⟩
    | ok _ =>
      rcases hq : processQualitiesAux en n n 0 (preQualityState gt s) with ⟨s3, exc⟩
      have h2 := processQualitiesAux_snd en n n 0 (preQualityState gt s)
      rw [hq] at h2
      cases exc with
      | error m0 =>
        cases hfe : firstEncodeError en n 0 with
        | some mf =>
          rw [hfe] at h2
          cases h2
          refine ⟨fun m hm => ?_, fun hm => by simp at hm⟩
          cases hm
          exact ⟨rfl, rfl, rfl, rfl, rfl⟩
        | none => rw [hfe] at h2; exact absurd h2 (by simp)
      | ok _ =>
        cases hfe : firstEncodeError en n 0 with
        | some mf => rw [hfe] at h2; exact absurd h2 (by simp)
        | none =>
          cases mp with
          | error m0 =>
            refine ⟨fun m hm => ?_, fun hm => by simp at hm⟩
            cases hm
            exact ⟨rfl, rfl, rfl, rfl, rfl⟩
          | ok _ =>
            cases sr with
            | error m0 =>
              refine ⟨fun m hm => ?_, fun hm => by simp at hm⟩
              cases hm
              exact ⟨rfl, rfl, rfl, rfl, rfl⟩
            | ok _ =>
              exact ⟨fun m hm => by simp at hm, fun _ => rfl⟩

/-- C7: on a successful pipeline run over `n ≥ 1` qualities starting from a
fresh progress trace, the persisted `processing_progress` values are
non-decreasing from checkpoint to checkpoint, the last persisted value is
exactly 100, and the asset row finishes with `processing_progress = 100`. -/
theorem process_progress_monotone (o : StepOutcomes) (n now : ℕ) (s : PipeState)
    (_hn : 1 ≤ n) (hs : s.progressTrace = [])
    (hok : (VideoProcessor_process o n now s).2 = Except.ok ()) :
    List.Chain' (· ≤ ·) (VideoProcessor_process o n now s).1.progressTrace ∧
    (VideoProcessor_process o n now s).1.progressTrace.getLast? = some 100 ∧
    (VideoProcessor_process o n now s).1.video.processing_progress = 100 := by
  obtain ⟨cd, em, gt, en, mp, sr⟩ := o
  simp only [VideoProcessor_process] at hok ⊢
  cases cd with
  | error m0 => simp [handleError] at hok
  | ok _ =>
    cases em with
    | error m0 => simp [handleError] at hok
    | ok _ =>
      have h2 := processQualitiesAux_snd en n n 0 (preQualityState gt s)
      rcases hq : processQualitiesAux en n n 0 (preQualityState gt s) with ⟨s3, exc⟩
      rw [hq] at hok h2
      cases exc with
      | error m0 => simp [postQualityFinish, handleError] at hok
      | ok _ =>
        have hfe : firstEncodeError en n 0 = none := by
          cases hfeh : firstEncodeError en n 0 with
          | some mf => rw [hfeh] at h2; exact absurd h2 (by simp)
          | none => rfl
        have htr := processQualitiesAux_trace en n n 0 (preQualityState gt s) hfe
        rw [hq] at htr
        have hpre : (preQualityState gt s).progressTrace = s.progressTrace ++ [5, 10, 15] := by
          cases gt <;> simp [preQualityState, updateProgress]
        have htr3 : s3.progressTrace =
            [5, 10, 15] ++ (List.range' 0 n).map (qualityProgress n) := by
          simpa [hpre, hs] using htr
        cases mp with
        | error m0 => simp [postQualityFinish, handleError] at hok
        | ok _ =>
          cases sr with
          | error m0 => simp [postQualityFinish, handleError] at hok
          | ok _ =>
            refine ⟨?_, ?_, rfl⟩
            · simp only [postQualityFinish, updateProgress, finalizeProcessing, htr3,
                List.append_assoc, List.cons_append, List.nil_append]
              refine List.chain'_cons.mpr ⟨by norm_num, ?_⟩
              refine List.chain'_cons.mpr ⟨by norm_num, ?_⟩
              exact chain_quality_tail n n 0 15 (by omega) (by norm_num)
                (fun _ => le_qualityProgress n 0)
            · exact List.getLast?_concat _

/-- Witness for C7 at a concrete input: all steps succeed, three qualities
(the preset count), a fresh state. -/
theorem process_progress_monotone_witness :
    1 ≤ 3 ∧ (PipeState.mk {} false false []).progressTrace = [] ∧
    (VideoProcessor_process allOkOutcomes 3 7 (PipeState.mk {} false false [])).2 =
      Except.ok () ∧
    List.Chain' (· ≤ ·)
      (VideoProcessor_process allOkOutcomes 3 7 (PipeState.mk {} false false [])).1.progressTrace ∧
    (VideoProcessor_process allOkOutcomes 3 7
      (PipeState.mk {} false false [])).1.progressTrace.getLast? = some 100 :=
  ⟨by norm_num, rfl, rfl,
    (process_progress_monotone allOkOutcomes 3 7 (PipeState.mk {} false false [])
      (by norm_num) rfl rfl).1,
    (process_progress_monotone allOkOutcomes 3 7 (PipeState.mk {} false false [])
      (by norm_num) rfl rfl).2.1⟩

/-- Witness for C8 at concrete inputs: a failing metadata extraction
produces the failure bookkeeping and re-raise; a failing thumbnail alone
still yields a successful run. -/
theorem process_error_handling_witness :
    firstFatalError metadataFailOutcomes 3 = some "no decodable video stream" ∧
    (VideoProcessor_process metadataFailOutcomes 3 42 (PipeState.mk {} false false [])).2 =
      Except.error "no decodable video stream" ∧
    (VideoProcessor_process metadataFailOutcomes 3 42
      (PipeState.mk {} false false [])).1.video.status = "failed" ∧
    (VideoProcessor_process metadataFailOutcomes 3 42
      (PipeState.mk {} false false [])).1.video.processing_completed_at = some 42 ∧
    (VideoProcessor_process metadataFailOutcomes 3 42
      (PipeState.mk {} false false [])).1.dirExists = false ∧
    firstFatalError thumbnailFailOutcomes 3 = none ∧
    (VideoProcessor_process thumbnailFailOutcomes 3 42 (PipeState.mk {} false false [])).2 =
      Except.ok () :=
  ⟨rfl,
    ((process_error_handling metadataFailOutcomes 3 42 (PipeState.mk {} false false [])).1
      "no decodable video stream" rfl).1,
    ((process_error_handling metadataFailOutcomes 3 42 (PipeState.mk {} false false [])).1
      "no decodable video stream" rfl).2.1,
    ((process_error_handling metadataFailOutcomes 3 42 (PipeState.mk {} false false [])).1
      "no decodable video stream" rfl).2.2.2.1,
    ((process_error_handling metadataFailOutcomes 3 42 (PipeState.mk {} false false [])).1
      "no decodable video stream" rfl).2.2.2.2,
    rfl,
    (process_error_handling thumbnailFailOutcomes 3 42 (PipeState.mk {} false false [])).2 rfl⟩

/-- C9: uploading an asset leaves it with `status='uploaded'` and one queued
entry; `BulkVideoProcessView` only skips assets whose status is
`processing` or `ready`, so bulk-processing that freshly uploaded asset
creates a second queue entry while the first is still queued — two active
entries for one asset. -/
theorem bulk_process_creates_second_active_entry :
    activeEntryCount (uploadOp "normal" 0) = 1 ∧
    activeEntryCount (bulkProcessOp "normal" 1 (uploadOp "normal" 0)) = 2 := by
  constructor <;> decide

/-- C10: the transition to `processing` in `process_video_task`
(tasks.py 419-422) saves with `update_fields=['status', 'task_id']`.  The
overridden `save` sets `started_at` on the in-memory instance, but the
stored row receives only the named columns: it ends with
`status='processing'` and `started_at` still NULL. -/
theorem save_with_update_fields_does_not_persist_started_at :
    (djangoSave 100 (some [QField.status, QField.task_id])
        { freshQueueEntry with status := "processing", task_id := "celery-1" }
        freshQueueEntry).1.started_at = some 100 ∧
    (djangoSave 100 (some [QField.status, QField.task_id])
        { freshQueueEntry with status := "processing", task_id := "celery-1" }
        freshQueueEntry).2.status = "processing" ∧
    (djangoSave 100 (some [QField.status, QField.task_id])
        { freshQueueEntry with status := "processing", task_id := "celery-1" }
        freshQueueEntry).2.started_at = none := by
  refine ⟨by decide, by decide, by decide⟩

end TNDVideo
